import Mathlib

/-!
Verification of the `lambda::basic_str_view` implementation (str_view.hpp).

The C++ type stores a raw pointer `m_str` and a length `m_length`
(`size_type = size_t`).  We embed a view as the list of characters that are
addressable from the stored pointer onward (the underlying buffer may extend
past `m_length`, e.g. over a string literal's terminator, exactly as a C++
pointer does) together with the stored length.  Characters are modelled as
natural character codes; `size_t` arithmetic is modelled as arithmetic
modulo 2^64 where the source can wrap.  A read past the end of the modelled
buffer is an out-of-bounds access of unspecified value; it is modelled as 0.
Operations that throw (`std::out_of_range`) return `none`.
-/

namespace LStringView

/-- The modulus of `size_type = size_t` (64-bit build). -/
def size_t_mod : Nat := 2 ^ 64

/-- `npos = size_type(-1)`. -/
def npos : Nat := size_t_mod - 1

/-- The modulus of `unsigned int` (the loop counters `auto i = 0u`). -/
def uint_mod : Nat := 2 ^ 32

/-- Wrapping `size_t` subtraction, for expressions such as
`m_length - sv.length()` that the source computes in unsigned arithmetic. -/
def wsub (a b : Nat) : Nat := (a + size_t_mod - b % size_t_mod) % size_t_mod

/-- `basic_str_view<CharT, Traits>`: `m_str` is the memory addressable from
the stored pointer onward, `m_length` the stored length.  The buffer may be
longer than `m_length` (pointer arithmetic past the view is representable,
as in C++). -/
structure StrView where
  m_str : List Nat
  m_length : Nat
deriving Repr, DecidableEq

/-- A raw memory read `p[i]`: past the end of the modelled buffer the value
is unspecified (an out-of-bounds access); we model it as 0, which also agrees
with a literal's terminator when the terminator is part of the buffer. -/
def memRead (s : List Nat) (i : Nat) : Nat := s.getD i 0

/-- `Traits::length(s)`: number of characters before the first terminator
(`List.findIdx` returns the list length when no terminator exists, i.e. the
scan runs off the modelled memory). -/
def traits_length (s : List Nat) : Nat := s.findIdx (fun c => c == 0)

/-- The converting constructor `basic_str_view(const CharT* s)`:
`m_str = s`, `m_length = Traits::length(s)`. -/
def ofCString (s : List Nat) : StrView := ⟨s, traits_length s⟩

/-- `Traits::compare(s1, s2, n)` of `std::char_traits`: walk the first `n`
characters of both sequences; `-1`/`1` at the first position where one is
smaller/greater, else `0`.  Reading is sequential from the two pointers, so
the recursion walks the two buffers in step. -/
def traits_cmp : List Nat → List Nat → Nat → Int
  | _, _, 0 => 0
  | a, b, n + 1 =>
    if a.headD 0 < b.headD 0 then -1
    else if b.headD 0 < a.headD 0 then 1
    else traits_cmp a.tail b.tail n

/-- The characters the view actually denotes: the first `m_length`
characters from the pointer. -/
def viewChars (v : StrView) : List Nat := v.m_str.take v.m_length

/-- `basic_str_view::compare(basic_str_view v)` (str_view.hpp line 628):

`const size_type rlen = (m_length, v.length());` is a comma expression, so
`rlen` is `v.length()` (the left operand is discarded), NOT the minimum of
the two lengths; then `trait_type::compare(m_str, v.m_str, rlen)`, with ties
broken by comparing `m_length` with `v.m_length`. -/
def sv_compare (a b : StrView) : Int :=
  let rlen := b.m_length
  let c := traits_cmp a.m_str b.m_str rlen
  if c ≠ 0 then c
  else if a.m_length < b.m_length then -1
  else if b.m_length < a.m_length then 1
  else 0

/-- `operator==(lhs, rhs)` (line 1011): `return rhs.compare(rhs) == 0;` —
the left operand is unused and `rhs` is compared with itself. -/
def sv_opEq (lhs rhs : StrView) : Bool := decide (sv_compare rhs rhs = 0)

/-- `operator!=(lhs, rhs)` (line 1044): `return rhs.compare(rhs) != 0;`. -/
def sv_opNe (lhs rhs : StrView) : Bool := decide (sv_compare rhs rhs ≠ 0)

/-- `operator<(lhs, rhs)` (line 1077): `return rhs.compare(rhs) < 0;`. -/
def sv_opLt (lhs rhs : StrView) : Bool := decide (sv_compare rhs rhs < 0)

/-- `operator<=(lhs, rhs)` (line 1109): `return rhs.compare(rhs) <= 0;`. -/
def sv_opLe (lhs rhs : StrView) : Bool := decide (sv_compare rhs rhs ≤ 0)

/-- `operator>(lhs, rhs)` (line 1142): `return rhs.compare(rhs) > 0;`. -/
def sv_opGt (lhs rhs : StrView) : Bool := decide (sv_compare rhs rhs > 0)

/-- `operator>=(lhs, rhs)` (line 1175): `return rhs.compare(rhs) >= 0;`. -/
def sv_opGe (lhs rhs : StrView) : Bool := decide (sv_compare rhs rhs ≥ 0)

/-- `basic_str_view::substr(pos, count)` (line 612): computes
`max_length = pos > m_length ? 0 : m_length - pos`, throws
`std::out_of_range` when `pos > m_length` (modelled as `none`), else returns
`basic_str_view(m_str + pos, std::min(count, max_length))`. -/
def sv_substr (v : StrView) (pos count : Nat) : Option StrView :=
  let max_length := if pos > v.m_length then 0 else v.m_length - pos
  if pos > v.m_length then none
  else some ⟨v.m_str.drop pos, min count max_length⟩

/-- The non-throwing path of `substr`, used where the caller has already
ensured `pos <= m_length` (the scanning loop of `find`). -/
def substr_core (v : StrView) (pos count : Nat) : StrView :=
  ⟨v.m_str.drop pos, min count (v.m_length - pos)⟩

/-- `compare(pos1, count1, v)` (line 637): `substr(pos1, count1).compare(v)`;
a throw from `substr` propagates (`none`). -/
def sv_compare_pos (v : StrView) (pos1 count1 : Nat) (w : StrView) : Option Int :=
  (sv_substr v pos1 count1).map (fun s => sv_compare s w)

/-- `basic_str_view::copy(dest, count, pos)` (line 598): throws when
`pos >= m_length`, else copies `rc = std::min(m_length - pos, count + 1)`
characters from `m_str + pos` and returns `rc`.  The result is the pair of
the characters written to `dest` and the returned count. -/
def sv_copy (v : StrView) (count pos : Nat) : Option (List Nat × Nat) :=
  if pos ≥ v.m_length then none
  else
    let rc := min (v.m_length - pos) (count + 1)
    some ((v.m_str.drop pos).take rc, rc)

/-- `basic_str_view::remove_prefix(n)` (line 570): the function body is
empty, so the view is returned unchanged. -/
def remove_prefix (v : StrView) (n : Nat) : StrView := v

/-- `basic_str_view::ends_with(basic_str_view sv)` (line 689):
`return compare(m_length - sv.length(), sv.length(), sv);` — the `int`
result is converted to `bool` (true iff nonzero, no `== 0`), and the
position `m_length - sv.length()` is computed in wrapping `size_t`
arithmetic.  A throw from the positional `compare` is `none`. -/
def ends_with_sv (v sv : StrView) : Option Bool :=
  (sv_compare_pos v (wsub v.m_length sv.m_length) sv.m_length sv).map
    (fun c => decide (c ≠ 0))

/-- First `j` in `start, start+1, …` (for `remaining` candidates) satisfying
`p`; models an ascending scanning loop with an early `return`. -/
def scanFirst (p : Nat → Bool) : Nat → Nat → Option Nat
  | _, 0 => none
  | start, r + 1 => if p start then some start else scanFirst p (start + 1) r

/-- `basic_str_view::find(basic_str_view v, size_type pos)` (line 728):
returns `npos` when `pos > m_length || pos + v.size() > m_length`; otherwise
`increments = m_length - v.size() - pos` and the loop tries
`j = pos, …, pos + increments`, returning the first `j` with
`substr(j, v.size()) == v` (the `operator==` above), else `npos`.  Inside
the loop `j <= m_length`, so `substr` cannot throw and `substr_core` is the
exact value it returns.  (The C++ loop counter is an `unsigned int`; its
32-bit wrap is unreachable because the loop returns at its first
iteration under the `operator==` above.) -/
def sv_find (v needle : StrView) (pos : Nat) : Nat :=
  if pos > v.m_length ∨ pos + needle.m_length > v.m_length then npos
  else
    let increments := v.m_length - needle.m_length - pos
    match scanFirst (fun j => sv_opEq (substr_core v j needle.m_length) needle)
        pos (increments + 1) with
    | some j => j
    | none => npos

/-- The loop bound of `basic_str_view::find(CharT ch, size_type pos)`
(line 757): `const auto increments = m_length - 1 - pos;`, computed in
`size_t` arithmetic, so it wraps around when `pos >= m_length`
(in particular `m_length = 0`). -/
def find_ch_increments (v : StrView) (pos : Nat) : Nat :=
  (v.m_length + 2 * size_t_mod - 1 - pos) % size_t_mod

/-- The trace of character indices read by the scanning loop of
`find(CharT, size_type)` (line 749), cut off after `fuel` iterations: at
iteration `i` (an `unsigned int`, hence `i % uint_mod`), while
`i <= increments` (compared in `size_t` after integral promotion), the loop
reads `m_str[j]` with `j = i + pos` and returns `j` on a match. -/
def find_ch_go (v : StrView) (ch pos : Nat) : Nat → Nat → List Nat
  | 0, _ => []
  | fuel + 1, i =>
    if i % uint_mod ≤ find_ch_increments v pos then
      let j := (i % uint_mod + pos) % size_t_mod
      if memRead v.m_str j == ch then [j]
      else j :: find_ch_go v ch pos fuel (i + 1)
    else []

/-- The indices read by `find(CharT ch, size_type pos)` within the first
`fuel` loop iterations: the guard `pos > m_length` returns `npos` before the
loop, so nothing is read; otherwise the loop runs from `i = 0`. -/
def find_ch_reads (v : StrView) (ch pos fuel : Nat) : List Nat :=
  if pos > v.m_length then [] else find_ch_go v ch pos fuel 0

/-- The inner loop of `find_first_not_of(basic_str_view v, size_type pos)`
(line 930) at outer index `idx`: the first `j < v.size()` with
`m_str[j] != v[idx]` — note the source indexes the haystack with the needle
index `j` and the needle with the haystack index `idx`, and returns `j`. -/
def ffno_inner (h needle : StrView) (idx : Nat) : Option Nat :=
  (List.range needle.m_length).find?
    (fun j => memRead h.m_str j != memRead needle.m_str idx)

/-- `basic_str_view::find_first_not_of(basic_str_view v, size_type pos)`
(line 930): for `idx = pos, …, m_length - 1`, return the first hit of the
inner loop (which returns the needle index `j`), else `npos`. -/
def ffno (h needle : StrView) (pos : Nat) : Nat :=
  match (List.range' pos (h.m_length - pos)).findSome?
      (fun idx => ffno_inner h needle idx) with
  | some j => j
  | none => npos

/- ------------------------------------------------------------------ -/
/- Claims                                                              -/
/- ------------------------------------------------------------------ -/

/-- C1: the claim says `compare` runs the traits comparison over
`rlen = min(a.size(), b.size())` and, when that common prefix is equal,
returns a negative value for the shorter `a`.  At `a` viewing one character
of the buffer "az" and `b = "ab"`, the length-1 common prefix is equal and
`a` is shorter, so the claim demands a negative result; the code returns `1`
because the comma expression makes `rlen = v.length() = 2`, reading past the
end of view `a`. -/
theorem c1_compare_rlen_is_not_min :
    sv_compare ⟨[97, 122], 1⟩ ⟨[97, 98], 2⟩ = 1 ∧
    traits_cmp [97, 122] [97, 98] (min 1 2) = 0 ∧
    (1 : Nat) < 2 := by decide

/-- C2: the claim says each relational operator is the corresponding sign
test of `lhs.compare(rhs)`.  At `lhs = "a"`, `rhs = "b"` we have
`lhs.compare(rhs) = -1`, yet `lhs == rhs` evaluates to `true`,
`lhs != rhs` to `false` and `lhs < rhs` to `false`, because every operator
evaluates `rhs.compare(rhs)`, ignoring `lhs`. -/
theorem c2_operators_ignore_lhs :
    sv_compare ⟨[97], 1⟩ ⟨[98], 1⟩ = -1 ∧
    sv_opEq ⟨[97], 1⟩ ⟨[98], 1⟩ = true ∧
    sv_opNe ⟨[97], 1⟩ ⟨[98], 1⟩ = false ∧
    sv_opLt ⟨[97], 1⟩ ⟨[98], 1⟩ = false ∧
    sv_opLe ⟨[97], 1⟩ ⟨[98], 1⟩ = true ∧
    sv_opGt ⟨[97], 1⟩ ⟨[98], 1⟩ = false ∧
    sv_opGe ⟨[97], 1⟩ ⟨[98], 1⟩ = true := by decide

/-- C3: the claim says `find(needle, pos)` returns the smallest `p >= pos`
whose substring equals the needle.  On `View("hello").find("lo", 0)` the
smallest such `p` is 3, but the code returns 0, because the scanning loop
tests matches with the broken `operator==` (which compares the needle with
itself and is always true): the substring of length 2 at position 0 is
"he", not "lo". -/
theorem c3_find_accepts_any_position :
    sv_find (ofCString [104, 101, 108, 108, 111, 0])
      (ofCString [108, 111, 0]) 0 = 0 ∧
    viewChars (substr_core (ofCString [104, 101, 108, 108, 111, 0]) 0 2) ≠
      viewChars (ofCString [108, 111, 0]) := by decide

/-- C4: `substr(pos, count)` throws out-of-range exactly when
`pos > size()`; otherwise it returns the view starting at offset `pos`
(pointer advanced by `pos`) of exactly `min(count, size() - pos)`
characters; `pos = size()` yields an empty view; and with the default count
`npos`, `substr(pos)` has size `size() - pos`. -/
theorem c4_substr_spec (v : StrView) (pos count : Nat)
    (hlen : v.m_length < size_t_mod) :
    (pos > v.m_length → sv_substr v pos count = none) ∧
    (pos ≤ v.m_length →
      sv_substr v pos count = some ⟨v.m_str.drop pos, min count (v.m_length - pos)⟩) ∧
    (pos = v.m_length → ∃ w, sv_substr v pos count = some w ∧ w.m_length = 0) ∧
    (pos ≤ v.m_length →
      ∃ w, sv_substr v pos npos = some w ∧ w.m_length = v.m_length - pos) := by
  refine ⟨?_, ?_, ?_, ?_⟩
  · intro h
    simp [sv_substr, h]
  · intro h
    simp [sv_substr, Nat.not_lt.mpr h]
  · intro h
    subst h
    refine ⟨⟨v.m_str.drop v.m_length, 0⟩, ?_, rfl⟩
    simp [sv_substr]
  · intro h
    refine ⟨⟨v.m_str.drop pos, v.m_length - pos⟩, ?_, rfl⟩
    have hle : v.m_length - pos ≤ npos := by
      have h1 : npos = size_t_mod - 1 := rfl
      have h2 : v.m_length + 1 ≤ size_t_mod := hlen
      omega
    simp [sv_substr, Nat.not_lt.mpr h, Nat.min_eq_right hle]

/-- Witness for C4 at the view "abc": position 4 is rejected, and
`substr(1, 5)` is the 2-character view starting at offset 1. -/
theorem c4_substr_spec_witness :
    sv_substr ⟨[97, 98, 99, 0], 3⟩ 4 2 = none ∧
    sv_substr ⟨[97, 98, 99, 0], 3⟩ 1 5 = some ⟨[98, 99, 0], 2⟩ :=
  ⟨(c4_substr_spec ⟨[97, 98, 99, 0], 3⟩ 4 2 (by decide)).1 (by decide),
   ((c4_substr_spec ⟨[97, 98, 99, 0], 3⟩ 1 5 (by decide)).2.1 (by decide)).trans
     (by decide)⟩

/-- C5: the claim says `copy(dest, count, pos)` writes and returns exactly
`min(count, size() - pos)` characters.  On the view "abc" with `count = 1`,
`pos = 0` the claim demands 1 character; the code writes and returns 2
because it computes `std::min(m_length - pos, count + 1)`. -/
theorem c5_copy_counts_one_extra :
    sv_copy ⟨[97, 98, 99, 0], 3⟩ 1 0 = some ([97, 98], 2) ∧
    min 1 (3 - 0) = 1 := by decide

/-- C6: the claim says `remove_prefix(n)` advances the pointer by `n` and
shrinks the length by `n`.  The function body is empty: on the 3-character
view "abc" with `n = 1` the view is returned completely unchanged — the
length stays 3 instead of becoming 2. -/
theorem c6_remove_prefix_does_nothing :
    remove_prefix ⟨[97, 98, 99, 0], 3⟩ 1 = StrView.mk [97, 98, 99, 0] 3 ∧
    (3 : Nat) ≠ 3 - 1 := by decide

/-- C7: the claim says `ends_with(sv)` is true iff the last `sv.size()`
characters equal `sv`, and false whenever `sv.size() > size()`.  On
`v = "abc"`, `sv = "bc"` the suffix matches, yet the code yields `false`
(the positional `compare` result 0 is converted straight to `bool` without
`== 0`); and on `v = "a"`, `sv = "ab"` the position `m_length - sv.length()`
wraps around and the positional `compare` throws out-of-range (`none`)
instead of returning `false`. -/
theorem c7_ends_with_inverted_and_wrapping :
    ends_with_sv ⟨[97, 98, 99, 0], 3⟩ ⟨[98, 99, 0], 2⟩ = some false ∧
    (viewChars ⟨[97, 98, 99, 0], 3⟩).drop (3 - 2) = viewChars ⟨[98, 99, 0], 2⟩ ∧
    ends_with_sv ⟨[97, 0], 1⟩ ⟨[97, 98, 0], 2⟩ = none := by decide

/-- C9: the claim says `find_first_not_of(set, pos)` returns the smallest
position at or after `pos` in the view whose character is not in the set,
and on the spec scenario `View("  trim  ").find_first_not_of(" ")` that
position is 2.  The code returns 0: its loops index the haystack with the
needle index and the needle with the haystack index, return the needle
index, and treat a single mismatch as a hit; position 0 holds a space,
which IS in the set. -/
theorem c9_find_first_not_of_confuses_indices :
    ffno (ofCString [32, 32, 116, 114, 105, 109, 32, 32, 0])
      (ofCString [32, 0]) 0 = 0 ∧
    memRead (viewChars (ofCString [32, 32, 116, 114, 105, 109, 32, 32, 0])) 0 = 32 ∧
    32 ∈ viewChars (ofCString [32, 0]) := by decide

/-- C10: the claim says every index read by the scanning loop of
`find(ch, pos)` is below `size()`, and that on an empty view the function
returns `npos` without reading.  On the empty view with `pos = 0` the guard
`pos > m_length` does not fire, the loop bound `m_length - 1 - pos` wraps to
`npos = 2^64 - 1`, and the first loop iteration already reads index 0,
which is not below the size 0. -/
theorem c10_find_char_reads_out_of_bounds :
    find_ch_reads ⟨[], 0⟩ 97 0 1 = [0] ∧
    find_ch_increments ⟨[], 0⟩ 0 = npos ∧
    ¬ (0 : Nat) < 0 := by decide

end LStringView
